import Mathlib

/-!
Verification of the dispatch core of `src/app.py` (ReviewGarden batch SMS
dispatcher).  Python functions are shallowly embedded as executable Lean
definitions; pandas `NaN` cells are modelled as `Option.none`, Python strings
as `String`, and the wall clock / Twilio network as explicit oracle
parameters.  Each claim theorem below names the definition(s) it is about.
-/

/-! ## Character classes used by the regexes of `validate_phone_number`
`charIsDigit` models `\d` (ASCII digits; Python `str` patterns also accept
other Unicode digits, which never occur in this data), `charIsSpace` models
`\s` (and the set stripped by `str.strip()`), both by code point. -/

def charIsDigit (c : Char) : Bool := 48 ≤ c.toNat && c.toNat ≤ 57

def charIsSpace (c : Char) : Bool :=
  c.toNat = 32 || c.toNat = 9 || c.toNat = 10 || c.toNat = 13 || c.toNat = 11 || c.toNat = 12

/-- Character class of `re.sub(r'[\s\-\(\)\.]', '', s)` (src/app.py:165). -/
def isFormattingChar (c : Char) : Bool :=
  charIsSpace c || c.toNat = 45 || c.toNat = 40 || c.toNat = 41 || c.toNat = 46

/-- Test of `'E' in phone_str.upper() or 'e' in phone_str` (src/app.py:154). -/
def isEe (c : Char) : Bool := c.toNat = 69 || c.toNat = 101

/-- Python `str.strip()`: drop leading and trailing whitespace. -/
def pyStrip (s : String) : String :=
  String.mk (((s.data.dropWhile charIsSpace).reverse.dropWhile charIsSpace).reverse)

def containsEe (s : String) : Bool := s.data.any isEe

/-- Test of `phone_str.endswith('.0')` (src/app.py:161). -/
def endsWithDotZero (s : String) : Bool :=
  match s.data.reverse with
  | '0' :: '.' :: _ => true
  | _ => false

/-- Model of `phone_str[:-2]` applied when the string ends in `.0`. -/
def stripDotZero (s : String) : String :=
  if endsWithDotZero s then String.mk (s.data.take (s.data.length - 2)) else s

/-- Model of `re.sub(r'[\s\-\(\)\.]', '', s)`. -/
def removeFormatting (s : String) : String :=
  String.mk (s.data.filter (fun c => !(isFormattingChar c)))

/-- Model of `re.sub(r'\D', '', s)`: keep the digits. -/
def digitsOnly (s : String) : String := String.mk (s.data.filter charIsDigit)

/-- Model of `s.startswith('+')`. -/
def headIsPlus (s : String) : Bool :=
  match s.data with
  | '+' :: _ => true
  | _ => false

/-- Model of `digits_only.startswith('1')`. -/
def headIsOne (s : String) : Bool :=
  match s.data with
  | '1' :: _ => true
  | _ => false

/-- Model of `re.match(r'^\+\d{10,15}$', s)` (src/app.py:182-183): a `+`
followed by 10 to 15 digits and nothing else. -/
def matchesIntl (s : String) : Bool :=
  match s.data with
  | '+' :: rest => rest.all charIsDigit && decide (10 ≤ rest.length) && decide (rest.length ≤ 15)
  | _ => false

/-- Final acceptance step of `validate_phone_number` (src/app.py:182-186). -/
def finalCheck (s : String) : Bool × String :=
  if matchesIntl s then (true, s) else (false, "Invalid international format")

/-- Cleaning pipeline applied after the scientific-notation branch: drop a
trailing `.0`, then remove formatting characters (src/app.py:161-165). -/
def cleanStep (s : String) : String := removeFormatting (stripDotZero s)

/-- Embedding of `validate_phone_number` (src/app.py:146-186).  The Excel
scientific-notation branch calls Python `"\x7b:.0f\x7d".format(float(s))`,
a floating-point parse/print; it is taken as an oracle parameter
`sci : String → Option String` (`none` models `ValueError`), and every
theorem below holds for all oracles.  A pandas `NaN` argument is out of
scope (the callers pass strings); `phone == ''` is the modelled guard. -/
def validate_phone_number (sci : String → Option String) (phone : String) : Bool × String :=
  if phone = "" then (false, "Missing phone number")
  else
    match (if containsEe (pyStrip phone) then sci (pyStrip phone) else some (pyStrip phone)) with
    | none => (false, "Invalid numeric format")
    | some s1 =>
      if !(headIsPlus (cleanStep s1)) then
        if (digitsOnly (cleanStep s1)).data.length = 10 then
          finalCheck ("+1" ++ digitsOnly (cleanStep s1))
        else if (digitsOnly (cleanStep s1)).data.length = 11 && headIsOne (digitsOnly (cleanStep s1)) then
          finalCheck ("+" ++ digitsOnly (cleanStep s1))
        else
          (false, "Invalid format: " ++ toString (digitsOnly (cleanStep s1)).data.length ++
            " digits (need 10-11)")
      else
        finalCheck ("+" ++ digitsOnly (cleanStep s1))

example : validate_phone_number (fun _ => none) "5551234567" = (true, "+15551234567") := by decide
example : validate_phone_number (fun _ => none) "+1 (555) 123-4567" = (true, "+15551234567") := by decide
example : validate_phone_number (fun _ => none) "12345" =
    (false, "Invalid format: 5 digits (need 10-11)") := by decide

/-! ## Shape facts about accepted phone numbers -/

lemma charIsDigit_not_space {c : Char} (h : charIsDigit c = true) : charIsSpace c = false := by
  simp only [charIsDigit, charIsSpace, Bool.and_eq_true, decide_eq_true_eq,
    Bool.or_eq_false_iff, decide_eq_false_iff_not] at h ⊢
  omega

lemma charIsDigit_not_formatting {c : Char} (h : charIsDigit c = true) :
    isFormattingChar c = false := by
  simp only [charIsDigit, charIsSpace, isFormattingChar, Bool.and_eq_true, decide_eq_true_eq,
    Bool.or_eq_false_iff, decide_eq_false_iff_not] at h ⊢
  omega

lemma charIsDigit_not_Ee {c : Char} (h : charIsDigit c = true) : isEe c = false := by
  simp only [charIsDigit, isEe, Bool.and_eq_true, decide_eq_true_eq,
    Bool.or_eq_false_iff, decide_eq_false_iff_not] at h ⊢
  omega

lemma finalCheck_true {s y : String} (h : finalCheck s = (true, y)) : matchesIntl y = true := by
  unfold finalCheck at h
  split at h
  next hm =>
    injection h with h1 h2
    subst h2
    exact hm
  next => exact absurd h (by simp)

lemma matchesIntl_shape {y : String} (h : matchesIntl y = true) :
    ∃ rest, y.data = '+' :: rest ∧ rest.all charIsDigit = true ∧ 10 ≤ rest.length := by
  unfold matchesIntl at h
  split at h
  next rest heq =>
    simp only [Bool.and_eq_true, decide_eq_true_eq] at h
    exact ⟨rest, heq, h.1.1, h.1.2⟩
  next => exact absurd h (by simp)

/-- Every success exit of `validate_phone_number` goes through the final
regex, so an accepted output always has the `+` then 10-15 digits form. -/
lemma validate_true_shape {sci : String → Option String} {x y : String}
    (h : validate_phone_number sci x = (true, y)) : matchesIntl y = true := by
  unfold validate_phone_number at h
  split at h
  · exact absurd h (by simp)
  · split at h
    · exact absurd h (by simp)
    · split at h
      · split at h
        · exact finalCheck_true h
        · split at h
          · exact finalCheck_true h
          · exact absurd h (by simp)
      · exact finalCheck_true h

lemma dropWhile_space_eq_self {l : List Char} (h : ∀ c ∈ l, charIsSpace c = false) :
    l.dropWhile charIsSpace = l := by
  cases l with
  | nil => rfl
  | cons a l =>
    rw [List.dropWhile_cons, h a (by simp)]
    simp

lemma pyStrip_eq_self {s : String} (h : ∀ c ∈ s.data, charIsSpace c = false) : pyStrip s = s := by
  unfold pyStrip
  rw [dropWhile_space_eq_self h,
    dropWhile_space_eq_self (fun c hc => h c (List.mem_reverse.mp hc)),
    List.reverse_reverse]

lemma endsWithDotZero_plus_digits {rest : List Char} (hd : rest.all charIsDigit = true) :
    endsWithDotZero (String.mk ('+' :: rest)) = false := by
  unfold endsWithDotZero
  split
  next heq =>
    have hmem : '.' ∈ ('+' :: rest).reverse := by
      rw [show (String.mk ('+' :: rest)).data = '+' :: rest from rfl] at heq
      rw [heq]
      simp
    rw [List.mem_reverse, List.mem_cons] at hmem
    rcases hmem with hmem | hmem
    · exact absurd hmem (by decide)
    · have := (List.all_eq_true.mp hd) '.' hmem
      exact absurd this (by decide)
  next => rfl

/-- An accepted phone number re-enters `validate_phone_number` unchanged and
is accepted again with the same output. -/
lemma matchesIntl_validate_fix (sci : String → Option String) {y : String}
    (h : matchesIntl y = true) : validate_phone_number sci y = (true, y) := by
  obtain ⟨rest, hdata, hdig, hlen⟩ := matchesIntl_shape h
  cases y with
  | mk d =>
  simp only [show (String.mk d).data = d from rfl] at hdata
  subst hdata
  have hdig' := List.all_eq_true.mp hdig
  have hne : String.mk ('+' :: rest) ≠ "" := by
    intro he
    have : ('+' :: rest) = ("" : String).data := congrArg String.data he
    simp at this
  have hnospace : ∀ c ∈ (String.mk ('+' :: rest)).data, charIsSpace c = false := by
    intro c hc
    rw [show (String.mk ('+' :: rest)).data = '+' :: rest from rfl, List.mem_cons] at hc
    rcases hc with rfl | hc
    · decide
    · exact charIsDigit_not_space (hdig' c hc)
  have hstrip : pyStrip (String.mk ('+' :: rest)) = String.mk ('+' :: rest) :=
    pyStrip_eq_self hnospace
  have hEe : containsEe (String.mk ('+' :: rest)) = false := by
    unfold containsEe
    rw [List.any_eq_false]
    intro c hc
    rw [show (String.mk ('+' :: rest)).data = '+' :: rest from rfl, List.mem_cons] at hc
    rcases hc with rfl | hc
    · decide
    · simp [charIsDigit_not_Ee (hdig' c hc)]
  have hclean : cleanStep (String.mk ('+' :: rest)) = String.mk ('+' :: rest) := by
    unfold cleanStep stripDotZero
    rw [endsWithDotZero_plus_digits hdig]
    simp only [if_neg (by simp : ¬ (false = true))]
    unfold removeFormatting
    congr 1
    rw [List.filter_eq_self]
    intro c hc
    rw [List.mem_cons] at hc
    rcases hc with rfl | hc
    · decide
    · simp [charIsDigit_not_formatting (hdig' c hc)]
  have hdigits : digitsOnly (String.mk ('+' :: rest)) = String.mk rest := by
    unfold digitsOnly
    congr 1
    rw [show (String.mk ('+' :: rest)).data = '+' :: rest from rfl, List.filter_cons]
    rw [show charIsDigit '+' = false from rfl]
    simp only [Bool.false_eq_true, if_false]
    rw [List.filter_eq_self]
    exact hdig'
  have hplus : headIsPlus (String.mk ('+' :: rest)) = true := rfl
  unfold validate_phone_number
  rw [if_neg hne, hstrip, hEe]
  simp only [Bool.false_eq_true, if_false]
  rw [hclean, hplus]
  simp only [Bool.not_true, Bool.false_eq_true, if_false]
  rw [hdigits, show ("+" : String) ++ String.mk rest = String.mk ('+' :: rest) from rfl]
  unfold finalCheck
  rw [if_pos h]

/-- C8: phone normalization is idempotent on its accepted outputs — for every
input the validator accepts (in particular every valid 10- or 11-digit
input), running `validate_phone_number` again on the produced normalized
string accepts it and returns the very same string, for every
scientific-notation oracle. -/
theorem normalize_idempotent (sci : String → Option String) (x y : String)
    (h : validate_phone_number sci x = (true, y)) :
    validate_phone_number sci y = (true, y) :=
  matchesIntl_validate_fix sci (validate_true_shape h)

/-- Witness for C8 at the spec's own example: `"5551234567"` normalizes to
`"+15551234567"`, and normalizing that output returns it unchanged. -/
theorem normalize_idempotent_witness :
    validate_phone_number (fun _ => none) "+15551234567" = (true, "+15551234567") :=
  normalize_idempotent (fun _ => none) "5551234567" "+15551234567" (by decide)

/-! ## Message templates (src/app.py:288-350)
The template strings are transcribed verbatim; `\x27` is an apostrophe. -/

/-- Embedding of `load_message_templates` (src/app.py:288-307), keeping only
the `template` field of each entry (the `description` field is unused by
`generate_enhanced_message`). -/
def load_message_templates : List String :=
  ["Hi {customer_name}! We hope you enjoyed your experience at {business_name}. Your feedback means the world to us! Would you mind sharing a quick Google review?",
   "Hey {customer_name}! Thanks for choosing {business_name}. We\x27d love to hear about your experience. Could you leave us a Google review?",
   "Hi {customer_name}! Thank you for visiting {business_name}. If you had a great experience, we\x27d really appreciate a Google review!",
   "Hello {customer_name}! We loved having you at {business_name}. Would you take a moment to share your thoughts in a Google review?"]

/-- The `date_service_templates` of src/app.py:318-321 (both service date and
type available). -/
def dateServiceTemplates : List String :=
  ["Hi {customer_name}! Hope you enjoyed your {service_type} at {business_name} on {service_date}. Would you mind leaving us a Google review?",
   "Hey {customer_name}! Thanks for your {service_type} at {business_name} on {service_date}. We\x27d love to hear about your experience in a Google review!"]

/-- The `date_templates` of src/app.py:326-329 (only service date available). -/
def dateTemplates : List String :=
  ["Hi {customer_name}! Hope you enjoyed your visit to {business_name} on {service_date}. Would you mind leaving us a Google review?",
   "Hey {customer_name}! Thanks for visiting {business_name} on {service_date}. We\x27d love to hear about your experience in a Google review!"]

/-- The `service_templates` of src/app.py:334-337 (only service type
available). -/
def serviceOnlyTemplates : List String :=
  ["Hi {customer_name}! We hope you loved your {service_type} at {business_name}. Would you share your experience with a Google review?",
   "Hey {customer_name}! Thanks for choosing {business_name} for your {service_type}. Mind leaving us a quick review?"]

/-- The `available_templates` pool built by `generate_enhanced_message`
(src/app.py:313-341): `if service_date and service_type` / `elif
service_date` / `elif service_type` (Python truthiness on strings is
non-emptiness), then the base templates are always appended. -/
def available_templates (serviceType serviceDate : String) : List String :=
  (if serviceDate ≠ "" ∧ serviceType ≠ "" then dateServiceTemplates
   else if serviceDate ≠ "" then dateTemplates
   else if serviceType ≠ "" then serviceOnlyTemplates
   else []) ++ load_message_templates

/-- Placeholder substitution of `selected_template.format(...)`
(src/app.py:345-350).  Python `str.format` substitutes each field in one
pass; the chained `String.replace` agrees with it whenever the substituted
values contain no placeholder text themselves, which is the case for all
inputs considered here. -/
def formatTemplate (t customer business stype sdate : String) : String :=
  (((t.replace "{customer_name}" customer).replace "{business_name}" business).replace
      "{service_type}" stype).replace "{service_date}" sdate

/-- Embedding of `generate_enhanced_message` (src/app.py:309-350).
`random.choice(seq)` picks uniformly over `seq`; it is modelled by an index
oracle `r : Nat` reduced modulo the pool size, so a uniformly random `r`
yields each pool entry with equal probability. -/
def generate_enhanced_message (r : Nat) (business customer stype sdate : String) : String :=
  formatTemplate
    ((available_templates stype sdate).getD (r % (available_templates stype sdate).length) "")
    customer business stype sdate

/-! ## Channel and dispatch (src/app.py:386-508) -/

/-- Outcome oracle for one `twilio_client.messages.create` call: either a
returned message object (its `status` and `sid`) or a raised exception with
its `str(e)` text. -/
inductive ChannelResp where
  | ok (status : String) (sid : String)
  | exn (msg : String)
deriving DecidableEq

/-- Python `pat in s` substring test. -/
def strContains (s pat : String) : Bool := decide (pat.data <:+: s.data)

/-- Python `str.lower()` (ASCII; the compared literals are ASCII). -/
def pyLower (s : String) : String := String.mk (s.data.map Char.toLower)

/-- Embedding of `send_sms_enhanced` (src/app.py:386-420).  The network call
itself is the `resp` oracle; the destination, body and sender do not affect
the returned pair. -/
def send_sms_enhanced (resp : ChannelResp) : Bool × String :=
  match resp with
  | .ok status sid =>
      if ["sent", "queued", "delivered"].contains status then (true, sid)
      else (false, "Message status: " ++ status)
  | .exn msg =>
      if strContains msg "Permission denied" then (false, "Not authorized to send to this number")
      else if strContains msg "is not a valid phone number" then
        (false, "Invalid phone number format")
      else if strContains (pyLower msg) "rate limit" then
        (false, "Rate limit exceeded - please slow down")
      else if strContains (pyLower msg) "overflow" then
        (false, "Message queue overflow - try again later")
      else if strContains (pyLower msg) "authenticate" then
        (false, "Twilio authentication failed")
      else (false, msg)

/-- One recipient row as seen by `send_sms_with_rate_limit`: the cells it
reads (`none` models a pandas `NaN` cell), plus the two per-row oracles —
the channel outcome used on a real send, and `unexpected`, which models an
exception raised inside the row's `try` body before any status or counter
is written (e.g. the `KeyError` of `row['Review Link']`); exceptions from
the progress-display calls made after the write are outside the model. -/
structure Row where
  customerName : Option String
  phone : Option String
  reviewLink : Option String
  generatedMessage : Option String
  resp : ChannelResp
  unexpected : Option String
deriving DecidableEq

/-- The tracking cells written for one row (`SMS_Status`, `Error`,
`Message_SID`); all three start as `''` (src/app.py:431-433). -/
structure RowResult where
  status : String
  error : String
  sid : String
deriving DecidableEq

def emptyResult : RowResult := { status := "", error := "", sid := "" }

/-- The four statuses a processed row can receive (src/app.py:443-500). -/
def terminalStatuses : List String := ["⏭️ Skipped", "❌ Failed", "🧪 Test", "✅ Sent"]

/-- The final message text of src/app.py:455; a `NaN` cell renders as `nan`
inside a Python f-string. -/
def finalMessage (row : Row) : String :=
  row.generatedMessage.getD "nan" ++ " " ++ row.reviewLink.getD "nan" ++ " Reply STOP to opt out."

/-- Processing of one row of the dispatch loop (src/app.py:439-502): the
`try` body with its guards, test-mode simulation and real send, and the
per-row `except` handler.  Returns the row's tracking cells, the increments
`(sent, failed, skipped)`, and the destinations passed to the channel.  The
test-mode `Message_SID` also embeds a wall-clock timestamp in the source; the
clock is dropped here. -/
def processRow (testMode : Bool) (i : Nat) (row : Row) :
    RowResult × (Nat × Nat × Nat) × List String :=
  match row.unexpected with
  | some e =>
    ({ status := "❌ Failed", error := "Unexpected error: " ++ e, sid := "" }, (0, 1, 0), [])
  | none =>
    if row.customerName.isNone || row.phone.isNone then
      ({ status := "⏭️ Skipped", error := "Missing name or phone", sid := "" }, (0, 0, 1), [])
    else if row.generatedMessage.isNone then
      ({ status := "❌ Failed", error := "No generated message", sid := "" }, (0, 1, 0), [])
    else if testMode then
      ({ status := "🧪 Test", error := "", sid := "TEST_" ++ toString i }, (1, 0, 0), [])
    else
      match send_sms_enhanced row.resp with
      | (true, sid) =>
        ({ status := "✅ Sent", error := "", sid := sid }, (1, 0, 0), [pyStrip (row.phone.getD "")])
      | (false, err) =>
        ({ status := "❌ Failed", error := err, sid := "" }, (0, 1, 0), [pyStrip (row.phone.getD "")])

/-- Result of a whole dispatch run: the per-row tracking cells, the three
counters returned by `send_sms_with_rate_limit`, and every destination the
channel was invoked for. -/
structure DispatchOut where
  results : List RowResult
  sent : Nat
  failed : Nat
  skipped : Nat
  calls : List String
deriving DecidableEq

/-- The `for i, row in df.iterrows()` loop of src/app.py:439-502, with `i`
the running row index. -/
def dispatchLoop (testMode : Bool) : Nat → List Row → DispatchOut
  | _, [] => { results := [], sent := 0, failed := 0, skipped := 0, calls := [] }
  | i, row :: rest =>
    let step := processRow testMode i row
    let acc := dispatchLoop testMode (i + 1) rest
    { results := step.1 :: acc.results,
      sent := step.2.1.1 + acc.sent,
      failed := step.2.1.2.1 + acc.failed,
      skipped := step.2.1.2.2 + acc.skipped,
      calls := step.2.2 ++ acc.calls }

/-- Embedding of `send_sms_with_rate_limit` (src/app.py:422-508).
`configured` models `twilio_client` being non-`None`.  When Twilio is not
configured and test mode is off, the function returns `(df, 0, len(df), 0)`
before the loop: no tracking cell is written (every row keeps the `''`
status), yet the failed counter equals the number of rows. -/
def send_sms_with_rate_limit (configured testMode : Bool) (rows : List Row) : DispatchOut :=
  if !configured && !testMode then
    { results := rows.map (fun _ => emptyResult), sent := 0, failed := rows.length, skipped := 0,
      calls := [] }
  else dispatchLoop testMode 0 rows

/-! ## Rate limiter (spec §4.3) and result aggregation -/

/-- Modelled from the spec: the repository has no sliding-window rate
limiter — `send_sms_with_rate_limit` paces real sends with a fixed
`time.sleep(delay_seconds)` only (src/app.py:483) and no `canSend` exists in
the code; this `canSend` follows §4.3 of the spec word for word: prune
timestamps older than 1 hour from the history, reject with "Hourly limit
reached" if the hourly count is at or above the hourly cap (default 100),
else reject with "Burst limit reached" if the count within the last
10 seconds is at or above the burst cap (default 10), else permit.  Times
are seconds; a timestamp `t` is within the hour iff `now ≤ t + 3600`.
Returns the verdict pair and the pruned history. -/
def canSend (hourlyCap burstCap : Nat) (history : List Nat) (now : Nat) :
    (Bool × String) × List Nat :=
  if hourlyCap ≤ (history.filter (fun t => now ≤ t + 3600)).length then
    ((false, "Hourly limit reached"), history.filter (fun t => now ≤ t + 3600))
  else if burstCap ≤
      ((history.filter (fun t => now ≤ t + 3600)).filter (fun t => now ≤ t + 10)).length then
    ((false, "Burst limit reached"), history.filter (fun t => now ≤ t + 3600))
  else ((true, ""), history.filter (fun t => now ≤ t + 3600))

/-- Embedding of the `success_rate` computation of `save_campaign_to_db`
(src/app.py:513): `(sent / (sent + failed)) * 100 if (sent + failed) > 0
else 0`.  Python float arithmetic is modelled by exact rationals; the
counterexample below uses values on which floats are exact. -/
def success_rate (sent failed : Nat) : ℚ :=
  if 0 < sent + failed then ((sent : ℚ) / ((sent : ℚ) + (failed : ℚ))) * 100 else 0

/-- Phone-cell handling of one row inside `enhanced_validate_csv_data`
(src/app.py:252-260): a present phone is validated; on success the cell is
rewritten with the normalized number (`df.at[idx, 'Phone'] = result`), on
failure the cell keeps its raw value and an issue is recorded; a missing
(NaN) cell only records an issue.  The `Row n:` prefix of the issue text is
elided. -/
def validatePhoneCell (sci : String → Option String) (phone : Option String) :
    Option String × List String :=
  match phone with
  | some p =>
    match validate_phone_number sci p with
    | (true, norm) => (some norm, [])
    | (false, msg) => (some p, ["Phone - " ++ msg])
  | none => (none, ["Missing phone number"])

/-! ## Concrete rows used by witnesses and counterexamples -/

def sampleRow : Row :=
  { customerName := some "John Smith", phone := some "+15555550100",
    reviewLink := some "https://search.google.com/local/writereview?placeid=YOUR_PLACE_ID",
    generatedMessage := some "Hello John Smith! We loved having you at Garden Cafe.",
    resp := .ok "queued" "SM100", unexpected := none }

def sampleRow2 : Row :=
  { customerName := some "Sarah Johnson", phone := some "+15555550101",
    reviewLink := some "https://search.google.com/local/writereview?placeid=YOUR_PLACE_ID",
    generatedMessage := some "Hi Sarah Johnson! Thank you for visiting Bloom Florist.",
    resp := .ok "sent" "SM101", unexpected := none }

def exnRow : Row :=
  { customerName := some "John Smith", phone := some "+15555550100",
    reviewLink := none, generatedMessage := some "Hello John Smith!",
    resp := .ok "sent" "SM100", unexpected := some "boom" }

def exnRow2 : Row :=
  { customerName := some "Sarah Johnson", phone := some "+15555550101",
    reviewLink := none, generatedMessage := some "Hi Sarah Johnson!",
    resp := .ok "sent" "SM101", unexpected := some "crash" }

/-- C2: the modelled `canSend` prunes the over-one-hour timestamps first and
then decides: "Hourly limit reached" when the in-hour count is at or above
100, else "Burst limit reached" when the last-10-seconds count is at or
above 10, else permits — for every history and every current time. -/
theorem canSend_gate_spec (history : List Nat) (now : Nat) :
    (canSend 100 10 history now).2 = history.filter (fun t => now ≤ t + 3600) ∧
    (canSend 100 10 history now).1 =
      (if 100 ≤ history.countP (fun t => now ≤ t + 3600) then (false, "Hourly limit reached")
       else if 10 ≤ history.countP (fun t => now ≤ t + 10) then (false, "Burst limit reached")
       else (true, "")) := by
  have hff : (history.filter (fun t => now ≤ t + 3600)).filter (fun t => now ≤ t + 10) =
      history.filter (fun t => now ≤ t + 10) := by
    rw [List.filter_filter]
    refine List.filter_congr ?_
    intro x _
    by_cases h : now ≤ x + 10
    · simp [h, show now ≤ x + 3600 by omega]
    · simp [h]
  constructor
  · unfold canSend
    split
    · rfl
    · split <;> rfl
  · rw [List.countP_eq_length_filter, List.countP_eq_length_filter, ← hff]
    unfold canSend
    split
    · rfl
    · split <;> rfl

/-- C9 counterexample: the claim's formula `sent / (sent + failed)` does not
match the code at `sent = failed = 1` — the code stores a percentage,
`(1 / 2) * 100 = 50`, not `1 / 2` (both values exact in Python floats). -/
theorem success_rate_cex : success_rate 1 1 ≠ (1 : ℚ) / (1 + 1) := by
  norm_num [success_rate]

/-- C9 amended: the aggregated success rate equals `100 * sent / (sent +
failed)` — a percentage, with skipped recipients excluded from the
denominator (stated denominator-cleared) — and equals 0 when
`sent + failed = 0`. -/
theorem success_rate_amended (sent failed : Nat) :
    (0 < sent + failed →
      success_rate sent failed * ((sent : ℚ) + (failed : ℚ)) = 100 * (sent : ℚ)) ∧
    (sent + failed = 0 → success_rate sent failed = 0) := by
  constructor
  · intro h
    have hne : ((sent : ℚ) + (failed : ℚ)) ≠ 0 := by
      have h0 : ((sent + failed : ℕ) : ℚ) ≠ 0 :=
        Nat.cast_ne_zero.mpr (Nat.pos_iff_ne_zero.mp h)
      push_cast at h0
      exact h0
    unfold success_rate
    rw [if_pos h]
    field_simp
    ring
  · intro h
    unfold success_rate
    rw [if_neg (by omega)]

/-- Witness for C9 at `sent = failed = 1`: the stored rate 50 satisfies
`50 * 2 = 100 * 1`. -/
theorem success_rate_amended_witness :
    success_rate 1 1 * ((1 : ℚ) + (1 : ℚ)) = 100 * (1 : ℚ) :=
  (success_rate_amended 1 1).1 (by norm_num)

/-! ## Per-row and whole-loop accounting -/

/-- Each processed row gets exactly one of the four terminal statuses and
bumps exactly one of the three counters. -/
lemma processRow_step (tm : Bool) (i : Nat) (row : Row) :
    (processRow tm i row).2.1.1 + (processRow tm i row).2.1.2.1 + (processRow tm i row).2.1.2.2
        = 1 ∧
    (processRow tm i row).1.status ∈ terminalStatuses := by
  cases hu : row.unexpected with
  | some e => simp [processRow, hu, terminalStatuses]
  | none =>
    simp only [processRow, hu]
    split_ifs with h1 h2 h3
    · simp [terminalStatuses]
    · simp [terminalStatuses]
    · simp [terminalStatuses]
    · rcases hsend : send_sms_enhanced row.resp with ⟨b, s⟩
      cases b <;> simp [hsend, terminalStatuses]

lemma dispatchLoop_totals (tm : Bool) (rows : List Row) : ∀ i : Nat,
    (dispatchLoop tm i rows).results.length = rows.length ∧
    (dispatchLoop tm i rows).sent + (dispatchLoop tm i rows).failed +
      (dispatchLoop tm i rows).skipped = rows.length ∧
    ∀ r ∈ (dispatchLoop tm i rows).results, r.status ∈ terminalStatuses := by
  induction rows with
  | nil => intro i; simp [dispatchLoop]
  | cons row rest ih =>
    intro i
    obtain ⟨ih1, ih2, ih3⟩ := ih (i + 1)
    obtain ⟨hstep1, hstep2⟩ := processRow_step tm i row
    refine ⟨?_, ?_, ?_⟩
    · simp [dispatchLoop, ih1]
    · simp only [dispatchLoop, List.length_cons]
      omega
    · intro r hr
      simp only [dispatchLoop, List.mem_cons] at hr
      rcases hr with rfl | hr
      · exact hstep2
      · exact ih3 r hr

/-- C4: after a completed dispatch run with the channel configured or test
mode on, there is exactly one tracking result per recipient row, each row's
status is exactly one of the four terminal statuses, and the returned
counters satisfy `sent + failed + skipped = len(df)`. -/
theorem dispatch_totals (configured testMode : Bool) (rows : List Row)
    (h : configured = true ∨ testMode = true) :
    (send_sms_with_rate_limit configured testMode rows).results.length = rows.length ∧
    (send_sms_with_rate_limit configured testMode rows).sent +
      (send_sms_with_rate_limit configured testMode rows).failed +
      (send_sms_with_rate_limit configured testMode rows).skipped = rows.length ∧
    ∀ r ∈ (send_sms_with_rate_limit configured testMode rows).results,
      r.status ∈ terminalStatuses := by
  have hcond : (!configured && !testMode) = false := by
    rcases h with rfl | rfl <;> simp
  unfold send_sms_with_rate_limit
  rw [hcond]
  simp only [Bool.false_eq_true, if_false]
  exact dispatchLoop_totals testMode rows 0

/-- Witness for C4: a one-row test-mode run yields one result with a terminal
status and counters summing to 1. -/
theorem dispatch_totals_witness :
    (send_sms_with_rate_limit false true [sampleRow]).results.length = 1 ∧
    (send_sms_with_rate_limit false true [sampleRow]).sent +
      (send_sms_with_rate_limit false true [sampleRow]).failed +
      (send_sms_with_rate_limit false true [sampleRow]).skipped = 1 ∧
    ∀ r ∈ (send_sms_with_rate_limit false true [sampleRow]).results,
      r.status ∈ terminalStatuses :=
  dispatch_totals false true [sampleRow] (Or.inr rfl)

lemma dispatchLoop_append (tm : Bool) (xs : List Row) : ∀ (ys : List Row) (i : Nat),
    (dispatchLoop tm i (xs ++ ys)).results =
      (dispatchLoop tm i xs).results ++ (dispatchLoop tm (i + xs.length) ys).results := by
  induction xs with
  | nil => intro ys i; simp [dispatchLoop]
  | cons x xs ih =>
    intro ys i
    simp only [List.cons_append, dispatchLoop, List.length_cons]
    rw [show i + (xs.length + 1) = i + 1 + xs.length by omega]
    congr 1
    exact ih ys (i + 1)

/-- C5: an unexpected exception inside one row's `try` body is caught at the
per-recipient boundary — that row's tracking cells become `❌ Failed` with
the generic reason `Unexpected error: ...` — and the rows before and after
it are still processed exactly as they are in a run of theirs alone (one
recipient's failure never prevents others from being attempted). -/
theorem exception_isolation (testMode : Bool) (pre post : List Row) (row : Row) (e : String)
    (h : row.unexpected = some e) :
    (send_sms_with_rate_limit true testMode (pre ++ row :: post)).results =
      (dispatchLoop testMode 0 pre).results ++
        ({ status := "❌ Failed", error := "Unexpected error: " ++ e, sid := "" } : RowResult) ::
          (dispatchLoop testMode (pre.length + 1) post).results := by
  unfold send_sms_with_rate_limit
  simp only [Bool.not_true, Bool.false_and, Bool.false_eq_true, if_false]
  rw [dispatchLoop_append]
  congr 1
  simp [dispatchLoop, processRow, h]

/-- Witness for C5: in a two-row batch whose first row raises (its review
link column is absent), the first result is the generic failure and the
second row is still processed. -/
theorem exception_isolation_witness :
    (send_sms_with_rate_limit true true ([] ++ exnRow :: [sampleRow2])).results =
      (dispatchLoop true 0 []).results ++
        ({ status := "❌ Failed", error := "Unexpected error: " ++ "boom", sid := "" } : RowResult) ::
          (dispatchLoop true (List.length ([] : List Row) + 1) [sampleRow2]).results :=
  exception_isolation true [] [sampleRow2] exnRow "boom" rfl

/-- C6 counterexample: with Twilio unconfigured and test mode off, the run
over two rows writes no per-row status (both keep `''`) and invokes no
channel call, yet returns `failed = 2` — the same counters `(0, 2, 0)` as a
configured run in which both recipients fail per-recipient — so a report
counting every recipient as failed is produced, not the claimed
no-partial-report outcome distinct from per-recipient failure. -/
theorem unconfigured_report_cex :
    (send_sms_with_rate_limit false false [sampleRow, sampleRow2]).failed = 2 ∧
    (∀ r ∈ (send_sms_with_rate_limit false false [sampleRow, sampleRow2]).results,
      r.status = "") ∧
    ((send_sms_with_rate_limit false false [sampleRow, sampleRow2]).sent,
      (send_sms_with_rate_limit false false [sampleRow, sampleRow2]).failed,
      (send_sms_with_rate_limit false false [sampleRow, sampleRow2]).skipped) =
      ((send_sms_with_rate_limit true false [exnRow, exnRow2]).sent,
        (send_sms_with_rate_limit true false [exnRow, exnRow2]).failed,
        (send_sms_with_rate_limit true false [exnRow, exnRow2]).skipped) := by
  decide

/-- C6 amended: if the channel is not configured and test mode is off, the
dispatch step returns before the loop — no recipient is assigned a per-row
status, no channel call is made — but the returned counters are
`(sent, failed, skipped) = (0, len(df), 0)`, reporting every recipient as
failed, so the aggregate outcome is not distinct from per-recipient
failure. -/
theorem unconfigured_abort_amended (rows : List Row) :
    (send_sms_with_rate_limit false false rows).results = rows.map (fun _ => emptyResult) ∧
    (send_sms_with_rate_limit false false rows).calls = [] ∧
    (send_sms_with_rate_limit false false rows).sent = 0 ∧
    (send_sms_with_rate_limit false false rows).failed = rows.length ∧
    (send_sms_with_rate_limit false false rows).skipped = 0 := by
  unfold send_sms_with_rate_limit
  simp

/-- The spec's opted-out destination, dispatched as a normal recipient: the
code has no `OptOutRegistry`, no `OptedOut` status and no opt-out check
anywhere in `send_sms_with_rate_limit` (src/app.py:439-502), although every
outgoing message carries `Reply STOP to opt out.` (src/app.py:455). -/
def optedOutRow : Row :=
  { customerName := some "Alice", phone := some "+15551234567",
    reviewLink := some "https://search.google.com/local/writereview?placeid=YOUR_PLACE_ID",
    generatedMessage := some "Hi Alice! We hope you enjoyed your experience at Garden Cafe.",
    resp := .ok "delivered" "SM123", unexpected := none }

/-- C1 (code bug): dispatching the destination `+15551234567` — the spec's
`optOut` example — in a configured real-mode run invokes the channel for it
and records `✅ Sent`; no result ever carries an `OptedOut` status.  The
dispatch loop takes no opt-out state at all, so the spec's mandated gate
cannot fire on any input. -/
theorem optout_not_enforced :
    (send_sms_with_rate_limit true false [optedOutRow]).calls = ["+15551234567"] ∧
    (send_sms_with_rate_limit true false [optedOutRow]).results.map RowResult.status =
      ["✅ Sent"] ∧
    ∀ r ∈ (send_sms_with_rate_limit true false [optedOutRow]).results,
      r.status ≠ "OptedOut" := by
  decide

/-- A row whose phone cell is present but invalid (5 digits), with name and
generated message present: the validator left the raw value in place
(src/app.py:254-255 records an issue without rewriting the cell), so the
dispatch guard `pd.isna(row['Phone'])` does not fire. -/
def invalidPhoneRow : Row :=
  { customerName := some "Alice", phone := some "12345",
    reviewLink := some "https://search.google.com/local/writereview?placeid=YOUR_PLACE_ID",
    generatedMessage := some "Hi Alice! We hope you enjoyed your experience at Garden Cafe.",
    resp := .ok "sent" "SM200", unexpected := none }

/-- C3 counterexample: the phone `"12345"` is present but fails
`validate_phone_number`, the validator keeps the raw cell, and a configured
real-mode dispatch of that row is NOT skipped: the channel is invoked with
`"12345"` and the row ends `✅ Sent` (the oracle provider accepted it) —
refuting both the claimed `Skipped` status and the claimed non-submission. -/
theorem invalid_phone_not_skipped_cex :
    validate_phone_number (fun _ => none) "12345" =
      (false, "Invalid format: 5 digits (need 10-11)") ∧
    validatePhoneCell (fun _ => none) (some "12345") =
      (some "12345", ["Phone - Invalid format: 5 digits (need 10-11)"]) ∧
    (send_sms_with_rate_limit true false [invalidPhoneRow]).calls = ["12345"] ∧
    (send_sms_with_rate_limit true false [invalidPhoneRow]).results.map RowResult.status =
      ["✅ Sent"] := by
  decide

/-- C3 amended: a row whose phone is present but invalid keeps its raw value
through validation (only an issue is recorded) and is NOT skipped by
dispatch — the `Missing name or phone` guard fires only on missing (NaN)
name or phone cells — instead the row proceeds to the real send attempt:
the channel is invoked with the stripped raw phone and the row ends
`✅ Sent` or `❌ Failed` according to the channel outcome. -/
theorem invalid_phone_dispatch_amended (sci : String → Option String) (p e : String)
    (name link msg : String) (resp : ChannelResp) (i : Nat)
    (h : validate_phone_number sci p = (false, e)) :
    validatePhoneCell sci (some p) = (some p, ["Phone - " ++ e]) ∧
    (processRow false i
        { customerName := some name, phone := some p, reviewLink := some link,
          generatedMessage := some msg, resp := resp, unexpected := none }).1.status ≠
      "⏭️ Skipped" ∧
    (processRow false i
        { customerName := some name, phone := some p, reviewLink := some link,
          generatedMessage := some msg, resp := resp, unexpected := none }).2.2 =
      [pyStrip p] := by
  refine ⟨?_, ?_, ?_⟩
  · simp only [validatePhoneCell, h]
  · rcases hsend : send_sms_enhanced resp with ⟨b, sres⟩
    cases b <;> simp [processRow, hsend]
  · rcases hsend : send_sms_enhanced resp with ⟨b, sres⟩
    cases b <;> simp [processRow, hsend]

/-- Witness for C3 amended at the concrete invalid phone `"12345"`. -/
theorem invalid_phone_dispatch_amended_witness :
    validatePhoneCell (fun _ => none) (some "12345") =
      (some "12345", ["Phone - " ++ "Invalid format: 5 digits (need 10-11)"]) ∧
    (processRow false 0
        { customerName := some "Bob", phone := some "12345", reviewLink := some "https://g.co",
          generatedMessage := some "Hi Bob!", resp := .ok "sent" "SM201",
          unexpected := none }).1.status ≠ "⏭️ Skipped" ∧
    (processRow false 0
        { customerName := some "Bob", phone := some "12345", reviewLink := some "https://g.co",
          generatedMessage := some "Hi Bob!", resp := .ok "sent" "SM201",
          unexpected := none }).2.2 = [pyStrip "12345"] :=
  invalid_phone_dispatch_amended (fun _ => none) "12345"
    "Invalid format: 5 digits (need 10-11)" "Bob" "https://g.co" "Hi Bob!"
    (.ok "sent" "SM201") 0 (by decide)

/-- C7 counterexample: with both service type and service date present
(non-empty), the first date-only variant and the first type-only variant are
NOT in the template pool — the `elif` chain of src/app.py:316-338 puts only
the (type+date) variants and the base templates there — refuting the claimed
all-tiers pool. -/
theorem tier_pool_cex :
    dateTemplates.getD 0 "" ∉ available_templates "Lunch Service" "January 15, 2024" ∧
    serviceOnlyTemplates.getD 0 "" ∉ available_templates "Lunch Service" "January 15, 2024" := by
  decide

/-- C7 amended: when both service type and service date are non-empty, the
pool is exactly the two (type+date) variants followed by the four base
templates — six templates, each selected by exactly one residue of the
uniform index modulo 6 — and no date-only or type-only variant is
selectable. -/
theorem tier_pool_amended (stype sdate : String) (hs : stype ≠ "") (hd : sdate ≠ "") :
    available_templates stype sdate = dateServiceTemplates ++ load_message_templates ∧
    (∀ t ∈ dateTemplates, t ∉ available_templates stype sdate) ∧
    (∀ t ∈ serviceOnlyTemplates, t ∉ available_templates stype sdate) ∧
    ∀ (r : Nat) (business customer : String),
      generate_enhanced_message r business customer stype sdate =
        formatTemplate ((dateServiceTemplates ++ load_message_templates).getD (r % 6) "")
          customer business stype sdate := by
  have hpool : available_templates stype sdate = dateServiceTemplates ++ load_message_templates := by
    unfold available_templates
    rw [if_pos ⟨hd, hs⟩]
  refine ⟨hpool, ?_, ?_, ?_⟩
  · intro t ht hmem
    rw [hpool] at hmem
    fin_cases ht <;> exact absurd hmem (by decide)
  · intro t ht hmem
    rw [hpool] at hmem
    fin_cases ht <;> exact absurd hmem (by decide)
  · intro r business customer
    unfold generate_enhanced_message
    rw [hpool]
    rfl

/-- Witness for C7 amended at concrete non-empty type and date. -/
theorem tier_pool_amended_witness :
    available_templates "Lunch Service" "January 15, 2024" =
      dateServiceTemplates ++ load_message_templates ∧
    (∀ t ∈ dateTemplates, t ∉ available_templates "Lunch Service" "January 15, 2024") ∧
    (∀ t ∈ serviceOnlyTemplates, t ∉ available_templates "Lunch Service" "January 15, 2024") ∧
    ∀ (r : Nat) (business customer : String),
      generate_enhanced_message r business customer "Lunch Service" "January 15, 2024" =
        formatTemplate ((dateServiceTemplates ++ load_message_templates).getD (r % 6) "")
          customer business "Lunch Service" "January 15, 2024" :=
  tier_pool_amended "Lunch Service" "January 15, 2024" (by decide) (by decide)

/-- C10: a real send whose channel call returns normally with a status
outside `sent`/`queued`/`delivered` is reported as a failure with reason
`Message status: <status>`, and the recipient's tracking cells become
`❌ Failed` with that reason, even though the provider accepted the
message. -/
theorem unusual_status_failed (status sid : String) (name phone link msg : String) (i : Nat)
    (h : (["sent", "queued", "delivered"].contains status) = false) :
    send_sms_enhanced (.ok status sid) = (false, "Message status: " ++ status) ∧
    (processRow false i
        { customerName := some name, phone := some phone, reviewLink := some link,
          generatedMessage := some msg, resp := .ok status sid, unexpected := none }).1 =
      { status := "❌ Failed", error := "Message status: " ++ status, sid := "" } := by
  have hsend : send_sms_enhanced (.ok status sid) = (false, "Message status: " ++ status) := by
    simp only [send_sms_enhanced, h]
    simp
  exact ⟨hsend, by simp [processRow, hsend]⟩

/-- Witness for C10 at the Twilio status `undelivered`. -/
theorem unusual_status_failed_witness :
    send_sms_enhanced (.ok "undelivered" "SM300") =
      (false, "Message status: " ++ "undelivered") ∧
    (processRow false 0
        { customerName := some "Alice", phone := some "+15551234567",
          reviewLink := some "https://g.co", generatedMessage := some "Hi Alice!",
          resp := .ok "undelivered" "SM300", unexpected := none }).1 =
      { status := "❌ Failed", error := "Message status: " ++ "undelivered", sid := "" } :=
  unusual_status_failed "undelivered" "SM300" "Alice" "+15551234567" "https://g.co" "Hi Alice!" 0
    (by decide)
